import Mathlib

/-!
Verification development for the vendingbench conversation/evaluation core.

This file shallowly embeds the data model and operations of
`vendingbench/core/scenario.py`, `vendingbench/core/conversation.py`,
`vendingbench/core/evaluator.py`, `vendingbench/core/llm_interface.py` and
`vendingbench/adapters/mock_llm.py`, and proves the spec claims about them.

Modelling conventions:
- Python lists become Lean `List`s; `list.append x` becomes `++ [x]`.
- Python floats used as exact values (temperature, metric values) become `ℚ`.
- Wall-clock timestamps and purely diagnostic metadata dictionaries
  (`LLMResponse.timestamp`, `LLMResponse.metadata`, `raw_response`,
  `EvaluationResult.evaluated_at`) are omitted: nothing in the engine or
  evaluator reads them.
- The transcript metadata dictionary is modelled by its two populated keys
  (`scenario_name`, `model_name`).
- Exceptions become `Except String`; a stateful, fallible model adapter is a
  function threading an explicit state `σ`.
- Python's `re` module is external library code; `pattern_matches` is therefore
  parameterised by an abstract search engine (`String → String → Option Bool`,
  `none` modelling `re.error` on compile). A small concrete engine `miniSearch`
  implements the fragment of Python `re` semantics exercised by the spec's
  examples (case-insensitive literals, `\d`, `+` on a single-character atom,
  the `$` end anchor, and `[...]` classes of literal characters, with an
  unterminated `[` being a compile error).
-/

namespace VendingBench

/-- Message model from `conversation.py` / `llm_interface.py`: a role-tagged
content string (Python dict with keys "role" and "content"). -/
structure Message where
  role : String
  content : String
deriving DecidableEq

/-- LLMResponse from `llm_interface.py` (content and model identifier; the
timestamp, diagnostic metadata and raw payload are not read by the core). -/
structure LLMResponse where
  content : String
  model : String
deriving DecidableEq

/-- TurnType enum from `scenario.py`. -/
inductive TurnType where
  | user_input
  | system_prompt
  | assertion
  | state_check
deriving DecidableEq

/-- ConversationTurn from `scenario.py` (the metadata mapping is not read by
the engine or evaluator and is omitted). -/
structure ConversationTurn where
  turn_type : TurnType
  content : String
  expected_patterns : List String := []
deriving DecidableEq

/-- ScenarioConfig from `scenario.py`. -/
structure ScenarioConfig where
  name : String
  description : String
  system_prompt : Option String := none
  temperature : ℚ := 7/10
  max_tokens : Option Nat := none
  stop_sequences : List String := []
deriving DecidableEq

/-- Scenario from `scenario.py`: configuration plus the ordered turn list.
The Python class also owns a list of validator functions; since a validator
consumes the scenario itself, that list is carried as a separate argument
(see `Validator`) to keep the type well-founded. -/
structure Scenario where
  config : ScenarioConfig
  turns : List ConversationTurn := []
deriving DecidableEq

/-- Scenario.add_turn: append a turn (fluent builder). -/
def Scenario.add_turn (s : Scenario) (t : ConversationTurn) : Scenario :=
  { s with turns := s.turns ++ [t] }

/-- Scenario.add_user_input: `expected_patterns or []` in Python maps both
`None` and `[]` to `[]`, i.e. `Option.getD` composed with the default. -/
def Scenario.add_user_input (s : Scenario) (content : String)
    (expected_patterns : Option (List String) := none) : Scenario :=
  s.add_turn { turn_type := .user_input, content := content,
               expected_patterns := expected_patterns.getD [] }

/-- Scenario.add_state_check: the `expected_patterns` argument is required in
the Python signature. -/
def Scenario.add_state_check (s : Scenario) (description : String)
    (expected_patterns : List String) : Scenario :=
  s.add_turn { turn_type := .state_check, content := description,
               expected_patterns := expected_patterns }

/-- Scenario.get_system_message: Python tests `if self.config.system_prompt:`,
so `None` and the empty string both yield no system message. -/
def Scenario.get_system_message (s : Scenario) : Option Message :=
  match s.config.system_prompt with
  | some p => if p = "" then none else some { role := "system", content := p }
  | none => none

/-- ConversationHistory from `conversation.py`; the metadata dict is modelled
by its two populated keys. -/
structure ConversationHistory where
  messages : List Message := []
  responses : List LLMResponse := []
  scenario_name : Option String := none
  model_name : Option String := none
deriving DecidableEq

/-- ConversationHistory.add_message. -/
def ConversationHistory.add_message (h : ConversationHistory)
    (role content : String) : ConversationHistory :=
  { h with messages := h.messages ++ [{ role := role, content := content }] }

/-- ConversationHistory.add_response: appends the response and an assistant
message with the same content. -/
def ConversationHistory.add_response (h : ConversationHistory)
    (r : LLMResponse) : ConversationHistory :=
  { h with responses := h.responses ++ [r],
           messages := h.messages ++ [{ role := "assistant", content := r.content }] }

/-- ConversationHistory.get_messages (returns a copy in Python; pure here). -/
def ConversationHistory.get_messages (h : ConversationHistory) : List Message :=
  h.messages

/-! ## Pattern matching (`Evaluator._pattern_matches`) -/

/-- Case folding used by the model of Python's `str.lower` / `re.IGNORECASE`
(ASCII fragment; all strings in the claims are ASCII). -/
def lowerStr (s : String) : String :=
  ⟨s.data.map Char.toLower⟩

/-- Membership of `n` as a contiguous sublist of `h`, matching Python's
substring operator `in` (the empty needle is contained in everything). -/
def containsSub (n : List Char) : List Char → Bool
  | [] => n.isEmpty
  | c :: h => n.isPrefixOf (c :: h) || containsSub n h

/-- Case-insensitive substring test `pattern.lower() in text.lower()`. -/
def substrCI (pattern text : String) : Bool :=
  containsSub (lowerStr pattern).data (lowerStr text).data

/-- Token of the modelled regular-expression fragment. -/
inductive RTok where
  | lit (c : Char)
  | digit
  | cls (cs : List Char)
  | endAnchor
  | plus (a : RTok)
deriving DecidableEq

/-- Parser for the modelled fragment of Python `re` syntax, accumulator style.
`\d` is the digit class, `$` the end anchor, `+` repeats the preceding
single-character atom, `[...]` is a class of literal characters; an
unterminated `[` is a compile error, as are escapes, metacharacters and
repetition forms outside the fragment. The second argument is `some cs` while
scanning the interior of a `[...]` class (with the characters seen so far,
reversed) and `none` otherwise. -/
def parseStep : List Char → Option (List Char) → List RTok → Except String (List RTok)
  | [], none, acc => .ok acc.reverse
  | [], some _, _ => .error "unterminated character set"
  | ']' :: rest, some cs, acc => parseStep rest none (.cls cs.reverse :: acc)
  | c :: rest, some cs, acc => parseStep rest (some (c :: cs)) acc
  | '\\' :: 'd' :: rest, none, acc => parseStep rest none (.digit :: acc)
  | '\\' :: _, none, _ => .error "unsupported escape"
  | '$' :: rest, none, acc => parseStep rest none (.endAnchor :: acc)
  | '[' :: rest, none, acc => parseStep rest (some []) acc
  | '+' :: rest, none, acc =>
    match acc with
    | .lit c :: acc2 => parseStep rest none (.plus (.lit c) :: acc2)
    | .digit :: acc2 => parseStep rest none (.plus .digit :: acc2)
    | .cls cs :: acc2 => parseStep rest none (.plus (.cls cs) :: acc2)
    | _ => .error "nothing to repeat"
  | c :: rest, none, acc =>
    if c ∈ ['(', ')', '*', '?', '.', '|', '^', '{', '}'] then
      .error "unsupported metacharacter"
    else
      parseStep rest none (.lit c :: acc)

/-- Parse a whole pattern in the modelled fragment. -/
def parseR (chars : List Char) : Except String (List RTok) :=
  parseStep chars none []

/-- Single-character atom test, case-insensitively (`re.IGNORECASE`). -/
def atomMatches : RTok → Char → Bool
  | .lit c, x => Char.toLower x == Char.toLower c
  | .digit, x => x.isDigit
  | .cls cs, x => cs.any (fun c => Char.toLower c == Char.toLower x)
  | _, _ => false

/-- Backtracking loop for a `+` repetition: consume one or more characters
satisfying `p`, then hand the remaining input to the continuation `k`. -/
def plusSearch (p : Char → Bool) (k : List Char → Bool) : List Char → Bool
  | [] => false
  | x :: xs => p x && (k xs || plusSearch p k xs)

/-- Matcher: does the token sequence match a prefix of `xs` (search semantics:
trailing input may remain)? The `$` anchor holds at the end of the text or
just before a final newline, as in Python without `re.MULTILINE`. -/
def matchToks : List RTok → List Char → Bool
  | [], _ => true
  | .lit c :: ts, xs =>
    match xs with
    | [] => false
    | x :: xs2 => (Char.toLower x == Char.toLower c) && matchToks ts xs2
  | .digit :: ts, xs =>
    match xs with
    | [] => false
    | x :: xs2 => x.isDigit && matchToks ts xs2
  | .cls cs :: ts, xs =>
    match xs with
    | [] => false
    | x :: xs2 => cs.any (fun c => Char.toLower c == Char.toLower x) && matchToks ts xs2
  | .endAnchor :: ts, xs => decide (xs = [] ∨ xs = ['\n']) && matchToks ts xs
  | .plus a :: ts, xs => plusSearch (atomMatches a) (fun ys => matchToks ts ys) xs

/-- Search: try to match at every start position, like `re.search`. -/
def searchFrom (ts : List RTok) : List Char → Bool
  | [] => matchToks ts []
  | x :: xs => matchToks ts (x :: xs) || searchFrom ts xs

/-- Concrete engine for the modelled fragment: `none` is a compile error
(Python `re.error`), `some b` the boolean outcome of `re.search` with
`re.IGNORECASE`. -/
def miniSearch (pattern text : String) : Option Bool :=
  match parseR pattern.data with
  | .error _ => none
  | .ok ts => some (searchFrom ts text.data)

/-- Evaluator._pattern_matches, parameterised by the regex engine: a regex
search returning a match gives `True` immediately; a compile error is
suppressed; in every other case the result is the case-insensitive substring
test. -/
def pattern_matches (eng : String → String → Option Bool) (pattern text : String) : Bool :=
  match eng pattern text with
  | some true => true
  | _ => substrCI pattern text

/-! ## Evaluator (`evaluator.py`) -/

/-- Details dictionary of a metric, modelled by the three shapes the evaluator
actually constructs: an error entry, the pattern-match entry and the
custom-validator identity entry. -/
inductive MetricDetails where
  | errorDetail (error : String)
  | patternDetail (matched missing : List String) (turn_content : String)
  | validatorDetail (validator_function : String)
deriving DecidableEq

/-- EvaluationMetric from `evaluator.py` (`value` is a Python float; every
value the evaluator produces is a ratio of small integers, modelled exactly
in `ℚ`). -/
structure EvaluationMetric where
  name : String
  value : ℚ
  passed : Bool
  details : MetricDetails
deriving DecidableEq

/-- EvaluationResult from `evaluator.py` (the `evaluated_at` timestamp and
metadata dict, never read, are omitted). -/
structure EvaluationResult where
  scenario_name : String
  model_name : String
  metrics : List EvaluationMetric
  overall_passed : Bool
deriving DecidableEq

/-- EvaluationResult.calculate_pass_rate: 0.0 on an empty metric list, else
the fraction of passed metrics. -/
def calculate_pass_rate (metrics : List EvaluationMetric) : ℚ :=
  if metrics = [] then 0
  else ((metrics.filter (fun m => m.passed)).length : ℚ) / metrics.length

/-- Turns the pattern pass does not skip: `if not turn.expected_patterns:
continue` skips exactly the turns with an empty pattern list. -/
def pattern_bearing (turns : List ConversationTurn) : List ConversationTurn :=
  turns.filter (fun t => !t.expected_patterns.isEmpty)

/-- Metric recorded when `response_idx >= len(history.responses)`. -/
def no_response_metric (response_idx : Nat) : EvaluationMetric :=
  { name := "pattern_match_turn_" ++ toString response_idx,
    value := 0,
    passed := false,
    details := .errorDetail "No response for this turn" }

/-- Metric recorded for a turn scored against the response at the cursor: the
loop over `turn.expected_patterns` partitions it, in order, into matched and
missing (i.e. `List.filter` on the match outcome); `turn_content` is
`turn.content[:100]`. -/
def score_metric (eng : String → String → Option Bool) (response_idx : Nat)
    (turn : ConversationTurn) (r : LLMResponse) : EvaluationMetric :=
  let matched := turn.expected_patterns.filter (fun p => pattern_matches eng p r.content)
  let missing := turn.expected_patterns.filter (fun p => !pattern_matches eng p r.content)
  { name := "pattern_match_turn_" ++ toString response_idx,
    value := if turn.expected_patterns.isEmpty then 1
             else (matched.length : ℚ) / turn.expected_patterns.length,
    passed := missing.isEmpty,
    details := .patternDetail matched missing ⟨turn.content.data.take 100⟩ }

/-- The response consumed at cursor `idx`, or the missing-response metric
when the cursor is exhausted (`response_idx >= len(responses)` in Python is
exactly `responses.get? idx = none`). -/
def metric_at (eng : String → String → Option Bool) (responses : List LLMResponse)
    (idx : Nat) (turn : ConversationTurn) : EvaluationMetric :=
  match responses.get? idx with
  | none => no_response_metric idx
  | some r => score_metric eng idx turn r

/-- Loop body of `Evaluator._evaluate_patterns`: walk the turns with the
response cursor, skipping pattern-free turns, recording a failing metric
without advancing on exhaustion, and otherwise scoring against the cursor's
response and advancing by one. -/
def evaluate_patterns_aux (eng : String → String → Option Bool) :
    List ConversationTurn → List LLMResponse → Nat → List EvaluationMetric
  | [], _, _ => []
  | turn :: ts, responses, response_idx =>
    if turn.expected_patterns.isEmpty then
      evaluate_patterns_aux eng ts responses response_idx
    else
      match responses.get? response_idx with
      | none =>
        no_response_metric response_idx :: evaluate_patterns_aux eng ts responses response_idx
      | some r =>
        score_metric eng response_idx turn r ::
          evaluate_patterns_aux eng ts responses (response_idx + 1)

/-- Evaluator._evaluate_patterns. -/
def evaluate_patterns (eng : String → String → Option Bool)
    (history : ConversationHistory) (scenario : Scenario) : List EvaluationMetric :=
  evaluate_patterns_aux eng scenario.turns history.responses 0

/-- Custom validator: a fallible function of (transcript, scenario), plus the
optional `__name__` attribute the evaluator reads for the details entry
(absent for lambdas). -/
structure Validator where
  vname : Option String
  run : ConversationHistory → Scenario → Except String Bool

/-- Loop body of `Evaluator._run_custom_validators` with the running
enumeration index. -/
def run_validators_aux (history : ConversationHistory) (scenario : Scenario) :
    List Validator → Nat → List EvaluationMetric
  | [], _ => []
  | v :: vs, i =>
    (match v.run history scenario with
     | .ok passed =>
       { name := "custom_validator_" ++ toString i,
         value := if passed then 1 else 0,
         passed := passed,
         details := .validatorDetail (v.vname.getD "lambda") }
     | .error e =>
       { name := "custom_validator_" ++ toString i,
         value := 0,
         passed := false,
         details := .errorDetail e }) :: run_validators_aux history scenario vs (i + 1)

/-- Evaluator._run_custom_validators. -/
def run_custom_validators (validators : List Validator)
    (history : ConversationHistory) (scenario : Scenario) : List EvaluationMetric :=
  run_validators_aux history scenario validators 0

/-- Metric recorded for the validator at enumeration index `i` (the body of
one `_run_custom_validators` iteration). -/
def validator_metric (history : ConversationHistory) (scenario : Scenario)
    (i : Nat) (v : Validator) : EvaluationMetric :=
  match v.run history scenario with
  | .ok passed =>
    { name := "custom_validator_" ++ toString i,
      value := if passed then 1 else 0,
      passed := passed,
      details := .validatorDetail (v.vname.getD "lambda") }
  | .error e =>
    { name := "custom_validator_" ++ toString i,
      value := 0,
      passed := false,
      details := .errorDetail e }

/-- Evaluator.evaluate: pattern pass, then validator pass, then the overall
conjunction. The scenario's validator list is the separate `validators`
argument (see `Scenario`). -/
def evaluate (eng : String → String → Option Bool) (history : ConversationHistory)
    (scenario : Scenario) (validators : List Validator) : EvaluationResult :=
  let metrics :=
    evaluate_patterns eng history scenario ++ run_custom_validators validators history scenario
  { scenario_name := scenario.config.name,
    model_name := history.model_name.getD "unknown",
    metrics := metrics,
    overall_passed := metrics.all (fun m => m.passed) }

/-! ## Conversation engine (`conversation.py`) -/

/-- Model adapter: `generate` over an explicit mutable-state type `σ` and
error type `ε` (a raised exception is `Except.error`). -/
structure LLM (σ ε : Type) where
  model_name : String
  generate : List Message → ℚ → Option Nat → σ → Except ε (LLMResponse × σ)

/-- Turn loop of `ConversationManager.run_scenario`; `_execute_user_turn`
(append the user message, call `generate` with the full accumulated message
list and the scenario's sampling options) is inlined at its only call site.
Turn kinds other than UserInput make no adapter call and append nothing. -/
def run_turns (llm : LLM σ ε) (cfg : ScenarioConfig) :
    List ConversationTurn → ConversationHistory → σ → Except ε (ConversationHistory × σ)
  | [], h, st => .ok (h, st)
  | turn :: ts, h, st =>
    match turn.turn_type with
    | .user_input =>
      let h1 := h.add_message "user" turn.content
      match llm.generate h1.get_messages cfg.temperature cfg.max_tokens st with
      | .ok (r, st1) => run_turns llm cfg ts (h1.add_response r) st1
      | .error e => .error e
    | _ => run_turns llm cfg ts h st

/-- Transcript state just before the turn loop of `run_scenario`: fresh
history stamped with scenario and model name, plus the system message if the
config carries a (non-empty) system prompt. -/
def init_history (llm : LLM σ ε) (scenario : Scenario) : ConversationHistory :=
  let h0 : ConversationHistory :=
    { scenario_name := some scenario.config.name, model_name := some llm.model_name }
  match scenario.get_system_message with
  | some m => h0.add_message m.role m.content
  | none => h0

/-- ConversationManager.run_scenario. -/
def run_scenario (llm : LLM σ ε) (scenario : Scenario) (st : σ) :
    Except ε (ConversationHistory × σ) :=
  run_turns llm scenario.config scenario.turns (init_history llm scenario) st

/-- ConversationManager.continue_conversation (returns the extended history
together with the response it returns in Python by mutation). -/
def continue_conversation (llm : LLM σ ε) (h : ConversationHistory)
    (user_input : String) (temperature : ℚ) (max_tokens : Option Nat) (st : σ) :
    Except ε (ConversationHistory × LLMResponse × σ) :=
  let h1 := h.add_message "user" user_input
  match llm.generate h1.get_messages temperature max_tokens st with
  | .ok (r, st1) => .ok (h1.add_response r, r, st1)
  | .error e => .error e

/-! ## Mock adapter (`mock_llm.py`) and the `llm_interface.py` helpers -/

/-- LLMInterface.validate_messages: non-empty list, every entry a dict with
role/content keys (guaranteed by the `Message` type here) and a recognised
role. -/
def validate_messages (messages : List Message) : Bool :=
  !messages.isEmpty && messages.all (fun m => ["system", "user", "assistant"].contains m.role)

/-- Constructor-time fields of MockLLM. -/
structure MockLLM where
  model_name : String := "mock-model"
  responses : List String := []

/-- Mutable fields of MockLLM. -/
structure MockState where
  response_index : Nat := 0
  call_count : Nat := 0
deriving DecidableEq

/-- MockLLM.generate: raise ValueError on invalid messages; otherwise return
the next scripted response if one remains (`self.responses and
self.response_index < len(self.responses)` is exactly
`responses.get? response_index = some _`), else echo the last user message. -/
def MockLLM.generate (m : MockLLM) (messages : List Message) (temperature : ℚ)
    (max_tokens : Option Nat) (st : MockState) : Except String (LLMResponse × MockState) :=
  if validate_messages messages = false then .error "Invalid message format"
  else
    let call_count := st.call_count + 1
    match m.responses.get? st.response_index with
    | some content =>
      .ok ({ content := content, model := m.model_name },
           { response_index := st.response_index + 1, call_count := call_count })
    | none =>
      let user_messages := messages.filter (fun msg => msg.role == "user")
      let content :=
        match user_messages.getLast? with
        | some msg => "Mock response to: " ++ msg.content
        | none => "Mock response with no user input"
      .ok ({ content := content, model := m.model_name },
           { st with call_count := call_count })

/-- The mock adapter packaged as an `LLM`. -/
def MockLLM.toLLM (m : MockLLM) : LLM MockState String :=
  { model_name := m.model_name, generate := m.generate }

/-- Helper for the model of Python `str.split()` with no separator: split on
runs of whitespace, discarding empty pieces. The first argument is the input,
the second the current word accumulated in reverse. -/
def split_ws_aux : List Char → List Char → List String
  | [], [] => []
  | [], cur => [⟨cur.reverse⟩]
  | c :: rest, cur =>
    if c.isWhitespace then
      match cur with
      | [] => split_ws_aux rest []
      | _ => ⟨cur.reverse⟩ :: split_ws_aux rest []
    else split_ws_aux rest (c :: cur)

/-- Model of Python `str.split()` (whitespace words of a string). -/
def py_split (s : String) : List String :=
  split_ws_aux s.data []

/-- MockLLM.generate_stream: run `generate`, then yield `word + " "` for each
word of `response.content.split()`. The lazy generator is modelled by the
finite list of fragments it yields. -/
def MockLLM.generate_stream (m : MockLLM) (messages : List Message) (temperature : ℚ)
    (max_tokens : Option Nat) (st : MockState) : Except String (List String × MockState) :=
  match m.generate messages temperature max_tokens st with
  | .ok (r, st1) => .ok ((py_split r.content).map (fun w => w ++ " "), st1)
  | .error e => .error e

/-! ## Instrumented adapter used to observe what the engine passes to
`generate` -/

/-- Record of one `generate` invocation. -/
structure CallRecord where
  messages : List Message
  temperature : ℚ
  max_tokens : Option Nat
deriving DecidableEq

/-- An adapter that never fails, records every call it receives and answers
the `n`-th call (0-based) with content `f n`. -/
def spy {ε : Type} (name : String) (f : Nat → String) : LLM (List CallRecord) ε :=
  { model_name := name,
    generate := fun ms temp mt recs =>
      .ok ({ content := f recs.length, model := name },
           recs ++ [{ messages := ms, temperature := temp, max_tokens := mt }]) }

/-- Number of UserInput turns in a turn list. -/
def count_user (turns : List ConversationTurn) : Nat :=
  (turns.filter (fun t => t.turn_type == TurnType.user_input)).length

/-- Number of messages with a given role. -/
def count_role (role : String) (msgs : List Message) : Nat :=
  (msgs.filter (fun msg => msg.role == role)).length

/-- Messages the spy-driven engine appends for a turn list, when the next
call index is `i`: a user/assistant pair per UserInput turn, nothing for
other turns. -/
def spy_msgs (f : Nat → String) (i : Nat) : List ConversationTurn → List Message
  | [] => []
  | t :: ts =>
    if t.turn_type == TurnType.user_input then
      { role := "user", content := t.content } ::
        { role := "assistant", content := f i } :: spy_msgs f (i + 1) ts
    else spy_msgs f i ts

/-- Responses the spy-driven engine appends for a turn list. -/
def spy_resps (name : String) (f : Nat → String) (i : Nat) :
    List ConversationTurn → List LLMResponse
  | [] => []
  | t :: ts =>
    if t.turn_type == TurnType.user_input then
      { content := f i, model := name } :: spy_resps name f (i + 1) ts
    else spy_resps name f i ts

/-- Call records the spy accumulates for a turn list, when the messages so
far are `base` and the next call index is `i`. -/
def spy_recs (cfg : ScenarioConfig) (f : Nat → String) (base : List Message) (i : Nat) :
    List ConversationTurn → List CallRecord
  | [] => []
  | t :: ts =>
    if t.turn_type == TurnType.user_input then
      { messages := base ++ [{ role := "user", content := t.content }],
        temperature := cfg.temperature, max_tokens := cfg.max_tokens } ::
        spy_recs cfg f
          (base ++ [{ role := "user", content := t.content },
                    { role := "assistant", content := f i }]) (i + 1) ts
    else spy_recs cfg f base i ts

/-! ## Auxiliary definitions for the claims about streaming and cursor
alignment, and concrete fixtures used by witnesses -/

/-- Concatenation of a finite fragment sequence, in order (what a consumer of
the streaming generator obtains by joining the yielded chunks). -/
def concat_fragments (fragments : List String) : String :=
  fragments.foldr (fun a b => a ++ b) ""

/-- Words joined by single spaces, as Python `" ".join(words)`. -/
def space_joined : List String → String
  | [] => ""
  | [w] => w
  | w :: ws => w ++ " " ++ space_joined ws

/-- A scenario whose turn list is one pattern-bearing StateCheck followed by
UserInput turns given as (content, expected_patterns) pairs. -/
def check_first_scenario (cfg : ScenarioConfig) (desc : String)
    (checkPats : List String) (us : List (String × List String)) : Scenario :=
  { config := cfg,
    turns := { turn_type := .state_check, content := desc, expected_patterns := checkPats } ::
      us.map (fun u =>
        { turn_type := TurnType.user_input, content := u.1, expected_patterns := u.2 }) }

/-- Fixture: a minimal scenario configuration. -/
def cfgW : ScenarioConfig :=
  { name := "vending-coherence", description := "state tracking" }

/-- Fixture: one pattern-bearing user turn. -/
def scenW2 : Scenario :=
  (Scenario.mk cfgW []).add_user_input "What is the price?" (some ["price"])

/-- Fixture: a transcript with one response. -/
def histW2 : ConversationHistory :=
  { responses := [{ content := "The price is right", model := "mock-model" }] }

/-- Fixture: two pattern-bearing user turns (used against the one-response
transcript to exercise the exhausted-cursor branch). -/
def scenW3 : Scenario :=
  ((Scenario.mk cfgW []).add_user_input "q0" (some ["price"])).add_user_input "q1"
    (some ["change"])

/-- Fixture: a validator that always raises. -/
def raisingValidator : Validator :=
  { vname := some "check_inventory", run := fun _ _ => .error "boom" }

/-- Fixture: a nameless validator that always succeeds. -/
def passingValidator : Validator :=
  { vname := none, run := fun _ _ => .ok true }

/-- Fixture: an adapter whose generate always raises. -/
def failLLM : LLM Unit String :=
  { model_name := "failing", generate := fun _ _ _ _ => .error "boom" }

/-- Fixture for the C10 counterexample: a pattern-bearing StateCheck followed
by two pattern-bearing UserInput turns. -/
def scenC10 : Scenario :=
  (((Scenario.mk cfgW []).add_state_check "check" ["A"]).add_user_input "q0"
      (some ["X1"])).add_user_input "q1" (some ["Z"])

/-- Fixture for the C10 counterexample: scripted responses for its two
UserInput turns. -/
def mockC10 : MockLLM :=
  { responses := ["X0", "X1"] }

/-! ## Helper lemmas -/

/-- Unfolding of `pattern_bearing` on a cons cell. -/
theorem pattern_bearing_cons (t : ConversationTurn) (ts : List ConversationTurn) :
    pattern_bearing (t :: ts) =
      if t.expected_patterns.isEmpty then pattern_bearing ts
      else t :: pattern_bearing ts := by
  by_cases h : t.expected_patterns.isEmpty <;>
    simp [pattern_bearing, List.filter_cons, h]

/-- Turns selected by the pattern pass have a non-empty pattern list. -/
theorem pattern_bearing_get?_nonempty {ts : List ConversationTurn} {k : Nat}
    {t : ConversationTurn} (h : (pattern_bearing ts).get? k = some t) :
    t.expected_patterns.isEmpty = false := by
  have hm : t ∈ pattern_bearing ts := List.get?_mem h
  have := List.mem_filter.mp hm
  simpa using this.2

/-- Closed form of the pattern-pass loop: the metric list is indexed by the
pattern-bearing turns, and the cursor at the `k`-th such turn is
`min (idx + k) (max idx responses.length)` (it advances by one per scored
turn and freezes once the responses are exhausted). -/
theorem evaluate_patterns_aux_get? (eng : String → String → Option Bool)
    (ts : List ConversationTurn) (rs : List LLMResponse) :
    ∀ idx k, (evaluate_patterns_aux eng ts rs idx).get? k =
      ((pattern_bearing ts).get? k).map
        (fun t => metric_at eng rs (min (idx + k) (max idx rs.length)) t) := by
  induction ts with
  | nil =>
    intro idx k
    simp [evaluate_patterns_aux, pattern_bearing]
  | cons t ts ih =>
    intro idx k
    by_cases he : t.expected_patterns.isEmpty
    · simp only [evaluate_patterns_aux, he, if_true, pattern_bearing_cons]
      exact ih idx k
    · have he2 : t.expected_patterns.isEmpty = false := by
        simpa using he
      cases hr : rs.get? idx with
      | none =>
        have hn : rs.length ≤ idx := List.get?_eq_none.mp hr
        cases k with
        | zero =>
          have h1 : min (idx + 0) (max idx rs.length) = idx := by omega
          simp only [evaluate_patterns_aux, he2, Bool.false_eq_true, if_false, hr,
            pattern_bearing_cons, List.get?_cons_zero, Option.map_some', h1, metric_at]
        | succ k2 =>
          have h1 : min (idx + k2) (max idx rs.length) =
              min (idx + (k2 + 1)) (max idx rs.length) := by omega
          simp only [evaluate_patterns_aux, he2, Bool.false_eq_true, if_false, hr,
            pattern_bearing_cons, List.get?_cons_succ]
          rw [ih idx k2, h1]
      | some r =>
        have hlt : idx < rs.length := by
          by_contra hc
          push_neg at hc
          rw [List.get?_eq_none.mpr hc] at hr
          exact absurd hr (by simp)
        cases k with
        | zero =>
          have h1 : min (idx + 0) (max idx rs.length) = idx := by omega
          simp only [evaluate_patterns_aux, he2, Bool.false_eq_true, if_false, hr,
            pattern_bearing_cons, List.get?_cons_zero, Option.map_some', h1, metric_at]
        | succ k2 =>
          have h1 : min (idx + 1 + k2) (max (idx + 1) rs.length) =
              min (idx + (k2 + 1)) (max idx rs.length) := by omega
          simp only [evaluate_patterns_aux, he2, Bool.false_eq_true, if_false, hr,
            pattern_bearing_cons, List.get?_cons_succ]
          rw [ih (idx + 1) k2, h1]

/-- The pattern pass produces exactly one metric per pattern-bearing turn. -/
theorem evaluate_patterns_aux_length (eng : String → String → Option Bool)
    (ts : List ConversationTurn) (rs : List LLMResponse) :
    ∀ idx, (evaluate_patterns_aux eng ts rs idx).length = (pattern_bearing ts).length := by
  induction ts with
  | nil => intro idx; simp [evaluate_patterns_aux, pattern_bearing]
  | cons t ts ih =>
    intro idx
    by_cases he : t.expected_patterns.isEmpty
    · simp only [evaluate_patterns_aux, he, if_true, pattern_bearing_cons]
      exact ih idx
    · have he2 : t.expected_patterns.isEmpty = false := by simpa using he
      cases hr : rs.get? idx with
      | none =>
        simp only [evaluate_patterns_aux, he2, Bool.false_eq_true, if_false, hr,
          pattern_bearing_cons, List.length_cons, ih]
      | some r =>
        simp only [evaluate_patterns_aux, he2, Bool.false_eq_true, if_false, hr,
          pattern_bearing_cons, List.length_cons, ih]

/-- Closed form of `evaluate_patterns` (cursor starts at 0, so the `k`-th
pattern-bearing turn sees cursor `min k responses.length`). -/
theorem evaluate_patterns_get? (eng : String → String → Option Bool)
    (history : ConversationHistory) (scenario : Scenario) (k : Nat) :
    (evaluate_patterns eng history scenario).get? k =
      ((pattern_bearing scenario.turns).get? k).map
        (fun t => metric_at eng history.responses (min k history.responses.length) t) := by
  have h := evaluate_patterns_aux_get? eng scenario.turns history.responses 0 k
  have h1 : min (0 + k) (max 0 history.responses.length) =
      min k history.responses.length := by omega
  rw [evaluate_patterns, h, h1]

/-- Length form of the previous lemma. -/
theorem evaluate_patterns_length (eng : String → String → Option Bool)
    (history : ConversationHistory) (scenario : Scenario) :
    (evaluate_patterns eng history scenario).length = (pattern_bearing scenario.turns).length :=
  evaluate_patterns_aux_length eng scenario.turns history.responses 0

/-! ## C1 -/

/-- C1: `pattern_matches` returns true iff the case-insensitive regex search
succeeds or the case-insensitive substring test succeeds; a compile error in
the pattern is suppressed and the result is exactly the substring test; in
particular "$5" matches "Your change is $5.00" (substring), "\d+" does not
match "no numbers here", and the malformed pattern "[" matches exactly the
texts containing "[" case-insensitively. -/
theorem c1_pattern_match_or_semantics :
    (∀ (eng : String → String → Option Bool) pattern text,
       pattern_matches eng pattern text =
         (decide (eng pattern text = some true) || substrCI pattern text)) ∧
    (∀ (eng : String → String → Option Bool) pattern text,
       eng pattern text = none →
       pattern_matches eng pattern text = substrCI pattern text) ∧
    pattern_matches miniSearch "$5" "Your change is $5.00" = true ∧
    pattern_matches miniSearch "\\d+" "no numbers here" = false ∧
    miniSearch "[" "anything" = none ∧
    (∀ text, pattern_matches miniSearch "[" text = substrCI "[" text) := by
  refine ⟨?_, ?_, by decide, by decide, by decide, ?_⟩
  · intro eng pattern text
    unfold pattern_matches
    rcases h : eng pattern text with _ | b
    · simp [h]
    · cases b <;> simp [h]
  · intro eng pattern text h
    unfold pattern_matches
    rw [h]
  · intro text
    have h : miniSearch "[" text = none := rfl
    unfold pattern_matches
    rw [h]

/-- Witness for C1: the fallback conjunct applied at the concrete malformed
pattern "[" and a concrete text. -/
theorem c1_pattern_match_or_semantics_witness :
    miniSearch "[" "slot [A1]" = none ∧
    pattern_matches miniSearch "[" "slot [A1]" = substrCI "[" "slot [A1]" ∧
    pattern_matches miniSearch "[" "slot [A1]" = true :=
  ⟨by decide, c1_pattern_match_or_semantics.2.1 miniSearch "[" "slot [A1]" (by decide),
   by decide⟩

/-- The validator pass records one metric per validator. -/
theorem run_validators_aux_length (history : ConversationHistory)
    (scenario : Scenario) (vs : List Validator) :
    ∀ i, (run_validators_aux history scenario vs i).length = vs.length := by
  induction vs with
  | nil => intro i; simp [run_validators_aux]
  | cons v vs ih => intro i; simp [run_validators_aux, ih]

/-- Closed form of the validator pass: the metric at position `k` is the
metric of validator `k`, at enumeration index `i + k`. -/
theorem run_validators_aux_get? (history : ConversationHistory)
    (scenario : Scenario) (vs : List Validator) :
    ∀ i k, (run_validators_aux history scenario vs i).get? k =
      (vs.get? k).map (fun v => validator_metric history scenario (i + k) v) := by
  induction vs with
  | nil => intro i k; simp [run_validators_aux]
  | cons v vs ih =>
    intro i k
    cases k with
    | zero =>
      show (run_validators_aux history scenario (v :: vs) i).get? 0 =
        some (validator_metric history scenario (i + 0) v)
      rw [Nat.add_zero]
      rfl
    | succ k2 =>
      have h1 : i + 1 + k2 = i + (k2 + 1) := by omega
      simp only [run_validators_aux, List.get?_cons_succ]
      rw [ih (i + 1) k2, h1]

/-! ## C2 and C3 -/

/-- C2: the pattern pass produces one metric per pattern-bearing turn (turns
with an empty pattern list produce no metric and consume no cursor position),
and the k-th pattern-bearing turn, when a response is available, is scored
against the k-th response, with value matched/total, passed iff nothing is
missing, and the matched/missing lists recorded in the details. -/
theorem c2_pattern_pass_alignment (eng : String → String → Option Bool)
    (history : ConversationHistory) (scenario : Scenario) :
    (evaluate_patterns eng history scenario).length =
      (pattern_bearing scenario.turns).length ∧
    ∀ k turn r, (pattern_bearing scenario.turns).get? k = some turn →
      history.responses.get? k = some r →
      (evaluate_patterns eng history scenario).get? k = some
        { name := "pattern_match_turn_" ++ toString k,
          value :=
            ((turn.expected_patterns.filter
                (fun p => pattern_matches eng p r.content)).length : ℚ) /
              turn.expected_patterns.length,
          passed :=
            (turn.expected_patterns.filter
              (fun p => !pattern_matches eng p r.content)).isEmpty,
          details := .patternDetail
            (turn.expected_patterns.filter (fun p => pattern_matches eng p r.content))
            (turn.expected_patterns.filter (fun p => !pattern_matches eng p r.content))
            ⟨turn.content.data.take 100⟩ } := by
  refine ⟨evaluate_patterns_length eng history scenario, ?_⟩
  intro k turn r hturn hresp
  have hk : k < history.responses.length := by
    by_contra hc
    push_neg at hc
    rw [List.get?_eq_none.mpr hc] at hresp
    exact absurd hresp (by simp)
  have hmin : min k history.responses.length = k := by omega
  have hne : turn.expected_patterns.isEmpty = false :=
    pattern_bearing_get?_nonempty hturn
  rw [evaluate_patterns_get? eng history scenario k, hturn, Option.map_some', hmin,
    metric_at, hresp]
  simp only [score_metric, hne, Bool.false_eq_true, if_false]

/-- Witness for C2: the one-turn fixture scored against its one response. -/
theorem c2_pattern_pass_alignment_witness :
    (evaluate_patterns miniSearch histW2 scenW2).get? 0 = some
      { name := "pattern_match_turn_0", value := 1, passed := true,
        details := .patternDetail ["price"] [] "What is the price?" } := by
  have h := (c2_pattern_pass_alignment miniSearch histW2 scenW2).2 0
    { turn_type := .user_input, content := "What is the price?",
      expected_patterns := ["price"] }
    { content := "The price is right", model := "mock-model" } rfl rfl
  refine h.trans ?_
  have hp : pattern_matches miniSearch "price" "The price is right" = true := by decide
  simp only [Option.some.injEq, EvaluationMetric.mk.injEq, List.filter_cons,
    List.filter_nil, hp]
  norm_num
  decide

/-- C3: a pattern-bearing turn whose cursor has no corresponding response
yields a failing metric (value 0, passed false, an error detail noting the
missing response) without advancing the cursor (every later pattern-bearing
turn sees the same exhausted cursor), no exception is raised (the pass is a
total function), the remaining turns are still walked (one metric per
pattern-bearing turn), and the custom validators still all run. -/
theorem c3_missing_response (eng : String → String → Option Bool)
    (history : ConversationHistory) (scenario : Scenario)
    (validators : List Validator) (k : Nat) (turn : ConversationTurn) :
    (pattern_bearing scenario.turns).get? k = some turn →
    history.responses.length ≤ k →
    (evaluate_patterns eng history scenario).get? k =
        some (no_response_metric history.responses.length) ∧
    no_response_metric history.responses.length =
      { name := "pattern_match_turn_" ++ toString history.responses.length,
        value := 0, passed := false,
        details := .errorDetail "No response for this turn" } ∧
    (∀ j turn2, k ≤ j → (pattern_bearing scenario.turns).get? j = some turn2 →
       (evaluate_patterns eng history scenario).get? j =
         some (no_response_metric history.responses.length)) ∧
    (evaluate_patterns eng history scenario).length =
      (pattern_bearing scenario.turns).length ∧
    (evaluate eng history scenario validators).metrics =
      evaluate_patterns eng history scenario ++
        run_custom_validators validators history scenario ∧
    (run_custom_validators validators history scenario).length = validators.length := by
  intro hturn hk
  have key : ∀ j turn2, k ≤ j → (pattern_bearing scenario.turns).get? j = some turn2 →
      (evaluate_patterns eng history scenario).get? j =
        some (no_response_metric history.responses.length) := by
    intro j turn2 hkj hturn2
    have hmin : min j history.responses.length = history.responses.length := by omega
    have hnone : history.responses.get? history.responses.length = none :=
      List.get?_eq_none.mpr (Nat.le_refl _)
    rw [evaluate_patterns_get? eng history scenario j, hturn2, Option.map_some', hmin,
      metric_at, hnone]
  refine ⟨key k turn (Nat.le_refl k) hturn, rfl, key,
    evaluate_patterns_length eng history scenario, rfl,
    run_validators_aux_length history scenario validators 0⟩

/-- Witness for C3: the two-turn fixture against the one-response transcript;
the second pattern-bearing turn is reported as having no response. -/
theorem c3_missing_response_witness :
    (evaluate_patterns miniSearch histW2 scenW3).get? 1 =
        some (no_response_metric 1) ∧
    (evaluate_patterns miniSearch histW2 scenW3).length = 2 ∧
    no_response_metric 1 =
      { name := "pattern_match_turn_1", value := 0, passed := false,
        details := .errorDetail "No response for this turn" } := by
  have h := c3_missing_response miniSearch histW2 scenW3 [] 1
    { turn_type := .user_input, content := "q1", expected_patterns := ["change"] }
    rfl (by decide)
  exact ⟨h.1, h.2.2.2.1.trans (by decide), by decide⟩

/-! ## C5 (with its closed-form helper lemmas) -/

/-- C5: validators run in declaration order with (transcript, scenario); a
raising validator is converted to a failing metric carrying the error message
and does not stop later validators; a returning validator yields a metric
mirroring its boolean; two validators where the first raises and the second
returns true yield exactly the two stated metrics and an overall failure. -/
theorem c5_validator_isolation (eng : String → String → Option Bool)
    (history : ConversationHistory) (scenario : Scenario)
    (validators : List Validator) :
    (run_custom_validators validators history scenario).length = validators.length ∧
    (∀ i v, validators.get? i = some v →
       (run_custom_validators validators history scenario).get? i =
         some (validator_metric history scenario i v)) ∧
    (∀ i v e, validators.get? i = some v → v.run history scenario = .error e →
       (run_custom_validators validators history scenario).get? i = some
         { name := "custom_validator_" ++ toString i, value := 0, passed := false,
           details := .errorDetail e }) ∧
    (∀ i v b, validators.get? i = some v → v.run history scenario = .ok b →
       (run_custom_validators validators history scenario).get? i = some
         { name := "custom_validator_" ++ toString i,
           value := if b then 1 else 0, passed := b,
           details := .validatorDetail (v.vname.getD "lambda") }) ∧
    (∀ v1 v2 e, v1.run history scenario = .error e →
       v2.run history scenario = .ok true →
       run_custom_validators [v1, v2] history scenario =
         [{ name := "custom_validator_" ++ toString 0, value := 0, passed := false,
            details := .errorDetail e },
          { name := "custom_validator_" ++ toString 1, value := 1, passed := true,
            details := .validatorDetail (v2.vname.getD "lambda") }] ∧
       (evaluate eng history scenario [v1, v2]).overall_passed = false) := by
  have hget : ∀ i v, validators.get? i = some v →
      (run_custom_validators validators history scenario).get? i =
        some (validator_metric history scenario i v) := by
    intro i v hv
    have h := run_validators_aux_get? history scenario validators 0 i
    rw [run_custom_validators, h, hv, Option.map_some', Nat.zero_add]
  refine ⟨run_validators_aux_length history scenario validators 0, hget, ?_, ?_, ?_⟩
  · intro i v e hv he
    have h := hget i v hv
    rw [h, validator_metric, he]
  · intro i v b hv hb
    have h := hget i v hv
    rw [h, validator_metric, hb]
  · intro v1 v2 e h1 h2
    constructor
    · show run_validators_aux history scenario [v1, v2] 0 = _
      simp only [run_validators_aux, h1, h2]
      rfl
    · have hlist : run_custom_validators [v1, v2] history scenario =
          run_validators_aux history scenario [v1, v2] 0 := rfl
      have hms : (evaluate eng history scenario [v1, v2]).overall_passed =
          ((evaluate_patterns eng history scenario ++
            run_custom_validators [v1, v2] history scenario).all (fun m => m.passed)) := rfl
      rw [hms, List.all_append, hlist]
      simp only [run_validators_aux, h1, h2]
      simp

/-- Witness for C5: the raising and passing validator fixtures. -/
theorem c5_validator_isolation_witness :
    run_custom_validators [raisingValidator, passingValidator] histW2 scenW2 =
      [{ name := "custom_validator_0", value := 0, passed := false,
         details := .errorDetail "boom" },
       { name := "custom_validator_1", value := 1, passed := true,
         details := .validatorDetail "lambda" }] ∧
    (evaluate miniSearch histW2 scenW2 [raisingValidator, passingValidator]).overall_passed
      = false := by
  have h := (c5_validator_isolation miniSearch histW2 scenW2
    [raisingValidator, passingValidator]).2.2.2.2 raisingValidator passingValidator
    "boom" rfl rfl
  exact ⟨h.1.trans (by decide), h.2⟩

/-! ## C6 -/

/-- C6: a result's metric list is the pattern-pass metrics followed by the
validator metrics (each pass in declaration order, per the two indexing
conjuncts); `overall_passed` is the conjunction of all `passed` flags,
vacuously true on an empty metric list; and the serialized pass rate of an
empty metric list is 0. -/
theorem c6_overall_and_ordering (eng : String → String → Option Bool)
    (history : ConversationHistory) (scenario : Scenario)
    (validators : List Validator) :
    (evaluate eng history scenario validators).metrics =
      evaluate_patterns eng history scenario ++
        run_custom_validators validators history scenario ∧
    (evaluate eng history scenario validators).overall_passed =
      (evaluate eng history scenario validators).metrics.all (fun m => m.passed) ∧
    ((evaluate eng history scenario validators).metrics = [] →
       (evaluate eng history scenario validators).overall_passed = true) ∧
    calculate_pass_rate [] = 0 ∧
    (∀ k, k < (pattern_bearing scenario.turns).length →
       (evaluate eng history scenario validators).metrics.get? k =
         ((pattern_bearing scenario.turns).get? k).map
           (fun t => metric_at eng history.responses (min k history.responses.length) t)) ∧
    (∀ i v, validators.get? i = some v →
       (evaluate eng history scenario validators).metrics.get?
           ((pattern_bearing scenario.turns).length + i) =
         some (validator_metric history scenario i v)) := by
  have hdecomp : (evaluate eng history scenario validators).metrics =
      evaluate_patterns eng history scenario ++
        run_custom_validators validators history scenario := rfl
  have hover : (evaluate eng history scenario validators).overall_passed =
      (evaluate eng history scenario validators).metrics.all (fun m => m.passed) := rfl
  have hplen := evaluate_patterns_length eng history scenario
  refine ⟨hdecomp, hover, ?_, rfl, ?_, ?_⟩
  · intro h0
    rw [hover, h0]
    rfl
  · intro k hk
    have hk2 : k < (evaluate_patterns eng history scenario).length := by omega
    rw [hdecomp, List.get?_append hk2, evaluate_patterns_get?]
  · intro i v hv
    have h1 : (evaluate_patterns eng history scenario).length ≤
        (pattern_bearing scenario.turns).length + i := by omega
    have h2 : (pattern_bearing scenario.turns).length + i -
        (evaluate_patterns eng history scenario).length = i := by omega
    rw [hdecomp, List.get?_append_right h1, h2, run_custom_validators,
      run_validators_aux_get? history scenario validators 0 i, hv, Option.map_some',
      Nat.zero_add]

/-- Witness for C6: concrete fixtures, with the validator metric landing right
after the single pattern metric. -/
theorem c6_overall_and_ordering_witness :
    (evaluate miniSearch histW2 scenW2 [passingValidator]).metrics.get?
        ((pattern_bearing scenW2.turns).length + 0) =
      some (validator_metric histW2 scenW2 0 passingValidator) ∧
    (evaluate miniSearch histW2 scenW2 [passingValidator]).overall_passed =
      (evaluate miniSearch histW2 scenW2 [passingValidator]).metrics.all
        (fun m => m.passed) ∧
    calculate_pass_rate [] = 0 := by
  have h := c6_overall_and_ordering miniSearch histW2 scenW2 [passingValidator]
  exact ⟨h.2.2.2.2.2 0 passingValidator rfl, h.2.1, h.2.2.2.1⟩

/-! ## Counting helpers for the conversation engine -/

/-- Value of `count_role` on the empty list. -/
theorem count_role_nil (role : String) : count_role role [] = 0 := rfl

/-- Unfolding of `count_role` on a cons cell. -/
theorem count_role_cons (role : String) (m : Message) (ms : List Message) :
    count_role role (m :: ms) =
      (if m.role == role then 1 else 0) + count_role role ms := by
  by_cases h : m.role == role
  · simp [count_role, List.filter_cons, h, Nat.add_comm]
  · simp [count_role, List.filter_cons, h]

/-- Unfolding of `count_role` on an append. -/
theorem count_role_append (role : String) (ms1 ms2 : List Message) :
    count_role role (ms1 ++ ms2) = count_role role ms1 + count_role role ms2 := by
  simp [count_role, List.filter_append]

/-- Unfolding of `count_user` on a cons cell. -/
theorem count_user_cons (t : ConversationTurn) (ts : List ConversationTurn) :
    count_user (t :: ts) =
      (if t.turn_type == TurnType.user_input then 1 else 0) + count_user ts := by
  by_cases h : t.turn_type == TurnType.user_input
  · simp [count_user, List.filter_cons, h, Nat.add_comm]
  · simp [count_user, List.filter_cons, h]

/-- Structural invariant of the turn loop: a successful run appends, to the
incoming transcript, message and response blocks with one user message, one
assistant message and one response per UserInput turn, no system messages,
and assistant contents in lockstep with response contents. -/
theorem run_turns_delta {σ ε : Type} (llm : LLM σ ε) (cfg : ScenarioConfig) :
    ∀ (ts : List ConversationTurn) (h : ConversationHistory) (st : σ)
      (h2 : ConversationHistory) (st2 : σ),
      run_turns llm cfg ts h st = .ok (h2, st2) →
      ∃ ms rs, h2.messages = h.messages ++ ms ∧ h2.responses = h.responses ++ rs ∧
        rs.length = count_user ts ∧
        count_role "user" ms = count_user ts ∧
        count_role "assistant" ms = count_user ts ∧
        count_role "system" ms = 0 ∧
        (ms.filter (fun m => m.role == "assistant")).map (fun m => m.content) =
          rs.map (fun r => r.content) := by
  intro ts
  induction ts with
  | nil =>
    intro h st h2 st2 hrun
    simp only [run_turns, Except.ok.injEq, Prod.mk.injEq] at hrun
    obtain ⟨rfl, rfl⟩ := hrun
    exact ⟨[], [], by simp [count_role, count_user]⟩
  | cons t ts ih =>
    intro h st h2 st2 hrun
    cases htt : t.turn_type
    case user_input =>
      simp only [run_turns, htt] at hrun
      cases hg : llm.generate (h.add_message "user" t.content).get_messages
          cfg.temperature cfg.max_tokens st with
      | error e =>
        rw [hg] at hrun
        exact absurd hrun (by simp)
      | ok p =>
        rw [hg] at hrun
        obtain ⟨ms, rs, hmsg, hresp, hlen, hu, ha, hs, hpair⟩ :=
          ih ((h.add_message "user" t.content).add_response p.1) p.2 h2 st2 hrun
        refine ⟨{ role := "user", content := t.content } ::
            { role := "assistant", content := p.1.content } :: ms, p.1 :: rs,
          ?_, ?_, ?_, ?_, ?_, ?_, ?_⟩
        · rw [hmsg]
          simp [ConversationHistory.add_message, ConversationHistory.add_response]
        · rw [hresp]
          simp [ConversationHistory.add_message, ConversationHistory.add_response]
        · simp only [List.length_cons, hlen, count_user_cons, htt]
          simp
          omega
        · simp [count_role_cons, hu, count_user_cons, htt]
        · simp [count_role_cons, ha, count_user_cons, htt]
        · simp [count_role_cons, hs]
        · simp [List.filter_cons, hpair]
    case system_prompt =>
      simp only [run_turns, htt] at hrun
      obtain ⟨ms, rs, hmsg, hresp, hlen, hu, ha, hs, hpair⟩ := ih h st h2 st2 hrun
      exact ⟨ms, rs, hmsg, hresp, by simp [hlen, count_user_cons, htt],
        by simp [hu, count_user_cons, htt], by simp [ha, count_user_cons, htt], hs, hpair⟩
    case assertion =>
      simp only [run_turns, htt] at hrun
      obtain ⟨ms, rs, hmsg, hresp, hlen, hu, ha, hs, hpair⟩ := ih h st h2 st2 hrun
      exact ⟨ms, rs, hmsg, hresp, by simp [hlen, count_user_cons, htt],
        by simp [hu, count_user_cons, htt], by simp [ha, count_user_cons, htt], hs, hpair⟩
    case state_check =>
      simp only [run_turns, htt] at hrun
      obtain ⟨ms, rs, hmsg, hresp, hlen, hu, ha, hs, hpair⟩ := ih h st h2 st2 hrun
      exact ⟨ms, rs, hmsg, hresp, by simp [hlen, count_user_cons, htt],
        by simp [hu, count_user_cons, htt], by simp [ha, count_user_cons, htt], hs, hpair⟩

/-! ## C4 -/

/-- C4: add_response appends exactly one response and one assistant message
with the same content; a successful run_scenario yields a transcript with one
response, one assistant message and one user message per UserInput turn,
assistant contents in lockstep with response contents, and a system message
(exactly one, placed first) iff the config carries a (non-empty) system
prompt; continue_conversation preserves the invariant, appending one user
message, one response and the matching assistant message. -/
theorem c4_transcript_lockstep :
    (∀ (h : ConversationHistory) (r : LLMResponse),
       (h.add_response r).responses = h.responses ++ [r] ∧
       (h.add_response r).messages =
         h.messages ++ [{ role := "assistant", content := r.content }]) ∧
    (∀ (σ ε : Type) (llm : LLM σ ε) (scenario : Scenario) (st : σ)
       (h2 : ConversationHistory) (st2 : σ),
       run_scenario llm scenario st = .ok (h2, st2) →
       h2.responses.length = count_user scenario.turns ∧
       count_role "assistant" h2.messages = count_user scenario.turns ∧
       count_role "user" h2.messages = count_user scenario.turns ∧
       count_role "system" h2.messages =
         (if scenario.get_system_message.isSome then 1 else 0) ∧
       (∀ m, scenario.get_system_message = some m → h2.messages.head? = some m) ∧
       (h2.messages.filter (fun m => m.role == "assistant")).map (fun m => m.content) =
         h2.responses.map (fun r => r.content)) ∧
    (∀ (σ ε : Type) (llm : LLM σ ε) (h : ConversationHistory) (input : String)
       (temp : ℚ) (mt : Option Nat) (st : σ) (h2 : ConversationHistory)
       (r : LLMResponse) (st2 : σ),
       continue_conversation llm h input temp mt st = .ok (h2, r, st2) →
       h2.messages = h.messages ++ [{ role := "user", content := input },
         { role := "assistant", content := r.content }] ∧
       h2.responses = h.responses ++ [r]) := by
  refine ⟨?_, ?_, ?_⟩
  · intro h r
    exact ⟨rfl, rfl⟩
  · intro σ ε llm scenario st h2 st2 hrun
    rw [run_scenario] at hrun
    obtain ⟨ms, rs, hmsg, hresp, hlen, hu, ha, hs, hpair⟩ :=
      run_turns_delta llm scenario.config scenario.turns (init_history llm scenario)
        st h2 st2 hrun
    cases hsys : scenario.get_system_message with
    | none =>
      have hinit : (init_history llm scenario).messages = [] := by
        simp [init_history, hsys]
      have hinitr : (init_history llm scenario).responses = [] := by
        simp [init_history, hsys]
      rw [hinit] at hmsg
      rw [hinitr] at hresp
      simp only [List.nil_append] at hmsg hresp
      subst hmsg
      subst hresp
      refine ⟨by simp [hlen], ha, hu, by simp [hsys, hs], by simp [hsys], hpair⟩
    | some m =>
      have hinit : (init_history llm scenario).messages = [m] := by
        simp [init_history, hsys, ConversationHistory.add_message]
      have hinitr : (init_history llm scenario).responses = [] := by
        simp [init_history, hsys, ConversationHistory.add_message]
      have hrole : m.role = "system" := by
        rcases hp : scenario.config.system_prompt with _ | p
        · simp only [Scenario.get_system_message, hp] at hsys
          exact Option.noConfusion hsys
        · simp only [Scenario.get_system_message, hp] at hsys
          by_cases hep : p = ""
          · rw [if_pos hep] at hsys
            exact absurd hsys (by simp)
          · rw [if_neg hep] at hsys
            cases hsys
            rfl
      rw [hinit] at hmsg
      rw [hinitr] at hresp
      simp only [List.nil_append] at hresp
      subst hresp
      refine ⟨by simp [hlen], ?_, ?_, ?_, ?_, ?_⟩
      · rw [hmsg, count_role_append, count_role_cons]
        simp [hrole, ha, count_role_nil]
      · rw [hmsg, count_role_append, count_role_cons]
        simp [hrole, hu, count_role_nil]
      · rw [hmsg, count_role_append, count_role_cons]
        simp [hrole, hs, hsys, count_role_nil]
      · intro m2 hm2
        have hme : m = m2 := Option.some.inj hm2
        subst hme
        rw [hmsg]
        rfl
      · rw [hmsg]
        simp only [List.singleton_append, List.filter_cons]
        have : (m.role == "assistant") = false := by
          rw [hrole]
          decide
        rw [this]
        simpa using hpair
  · intro σ ε llm h input temp mt st h2 r st2 hrun
    rw [continue_conversation] at hrun
    cases hg : llm.generate (h.add_message "user" input).get_messages temp mt st with
    | error e =>
      rw [hg] at hrun
      exact absurd hrun (by simp)
    | ok p =>
      rw [hg] at hrun
      simp only [Except.ok.injEq, Prod.mk.injEq] at hrun
      obtain ⟨rfl, rfl, rfl⟩ := hrun
      constructor
      · simp [ConversationHistory.add_message, ConversationHistory.add_response]
      · simp [ConversationHistory.add_message, ConversationHistory.add_response]

/-- Witness for C4: a concrete mock run with a system prompt, one UserInput
turn and one StateCheck turn, with the lockstep counts evaluated. -/
theorem c4_transcript_lockstep_witness :
    run_scenario (MockLLM.toLLM { responses := ["ok"] })
        { config := { name := "w", description := "d", system_prompt := some "be brief" },
          turns := [{ turn_type := .user_input, content := "hi" },
                    { turn_type := .state_check, content := "c" }] } ⟨0, 0⟩ =
      .ok ({ messages := [{ role := "system", content := "be brief" },
                          { role := "user", content := "hi" },
                          { role := "assistant", content := "ok" }],
             responses := [{ content := "ok", model := "mock-model" }],
             scenario_name := some "w", model_name := some "mock-model" }, ⟨1, 1⟩) ∧
    count_role "assistant" [{ role := "system", content := "be brief" },
      { role := "user", content := "hi" },
      { role := "assistant", content := "ok" }] = 1 ∧
    count_role "user" [{ role := "system", content := "be brief" },
      { role := "user", content := "hi" },
      { role := "assistant", content := "ok" }] = 1 ∧
    count_role "system" [{ role := "system", content := "be brief" },
      { role := "user", content := "hi" },
      { role := "assistant", content := "ok" }] = 1 := by
  have hrun : run_scenario (MockLLM.toLLM { responses := ["ok"] })
      { config := { name := "w", description := "d", system_prompt := some "be brief" },
        turns := [{ turn_type := .user_input, content := "hi" },
                  { turn_type := .state_check, content := "c" }] } ⟨0, 0⟩ =
      .ok ({ messages := [{ role := "system", content := "be brief" },
                          { role := "user", content := "hi" },
                          { role := "assistant", content := "ok" }],
             responses := [{ content := "ok", model := "mock-model" }],
             scenario_name := some "w", model_name := some "mock-model" }, ⟨1, 1⟩) := rfl
  have h := c4_transcript_lockstep.2.1 MockState String
    (MockLLM.toLLM { responses := ["ok"] })
    { config := { name := "w", description := "d", system_prompt := some "be brief" },
      turns := [{ turn_type := .user_input, content := "hi" },
                { turn_type := .state_check, content := "c" }] } ⟨0, 0⟩ _ _ hrun
  exact ⟨hrun, h.2.1.trans (by decide), h.2.2.1.trans (by decide),
    h.2.2.2.1.trans (by decide)⟩

/-! ## C7 (spy closed forms) -/

/-- Taking an append up to an offset inside the second list. -/
theorem take_append_exact {α : Type} (l1 l2 : List α) (j : Nat) :
    (l1 ++ l2).take (l1.length + j) = l1 ++ l2.take j := by
  induction l1 with
  | nil => simp
  | cons a l1 ih =>
    have h1 : (a :: l1).length + j = (l1.length + j) + 1 := by
      simp only [List.length_cons]
      omega
    rw [List.cons_append, h1, List.take_succ_cons, ih, List.cons_append]

/-- Closed form of the turn loop under the spy adapter: it always succeeds,
appending the computed message, response and call-record blocks. -/
theorem spy_run_turns {ε : Type} (name : String) (f : Nat → String)
    (cfg : ScenarioConfig) :
    ∀ (ts : List ConversationTurn) (h : ConversationHistory) (recs : List CallRecord),
      run_turns (spy (ε := ε) name f) cfg ts h recs =
        .ok ({ h with messages := h.messages ++ spy_msgs f recs.length ts,
                      responses := h.responses ++ spy_resps name f recs.length ts },
             recs ++ spy_recs cfg f h.messages recs.length ts) := by
  intro ts
  induction ts with
  | nil =>
    intro h recs
    simp [run_turns, spy_msgs, spy_resps, spy_recs]
  | cons t ts ih =>
    intro t_h t_recs
    have hgen : ∀ (ms : List Message) (temp : ℚ) (mt : Option Nat)
        (recs : List CallRecord),
        (spy (ε := ε) name f).generate ms temp mt recs =
          .ok ({ content := f recs.length, model := name },
               recs ++ [{ messages := ms, temperature := temp, max_tokens := mt }]) :=
      fun _ _ _ _ => rfl
    cases htt : t.turn_type
    case user_input =>
      simp only [run_turns, htt, ConversationHistory.get_messages, hgen]
      rw [ih]
      simp [ConversationHistory.add_message, ConversationHistory.add_response,
        spy_msgs, spy_resps, spy_recs, htt, List.append_assoc]
    case system_prompt =>
      simp only [run_turns, htt]
      rw [ih]
      simp [spy_msgs, spy_resps, spy_recs, htt]
    case assertion =>
      simp only [run_turns, htt]
      rw [ih]
      simp [spy_msgs, spy_resps, spy_recs, htt]
    case state_check =>
      simp only [run_turns, htt]
      rw [ih]
      simp [spy_msgs, spy_resps, spy_recs, htt]

/-- The spy appends two messages per UserInput turn. -/
theorem spy_msgs_length (f : Nat → String) :
    ∀ (ts : List ConversationTurn) (i : Nat),
      (spy_msgs f i ts).length = 2 * count_user ts := by
  intro ts
  induction ts with
  | nil => intro i; simp [spy_msgs, count_user]
  | cons t ts ih =>
    intro i
    by_cases hb : t.turn_type == TurnType.user_input
    · simp only [spy_msgs, hb, if_true, List.length_cons, count_user_cons, ih]
      omega
    · have hb2 : (t.turn_type == TurnType.user_input) = false := by simpa using hb
      simp only [spy_msgs, hb2, Bool.false_eq_true, if_false, count_user_cons, ih]
      omega

/-- The spy records one call per UserInput turn. -/
theorem spy_recs_length (cfg : ScenarioConfig) (f : Nat → String) :
    ∀ (ts : List ConversationTurn) (base : List Message) (i : Nat),
      (spy_recs cfg f base i ts).length = count_user ts := by
  intro ts
  induction ts with
  | nil => intro base i; simp [spy_recs, count_user]
  | cons t ts ih =>
    intro base i
    by_cases hb : t.turn_type == TurnType.user_input
    · simp only [spy_recs, hb, if_true, List.length_cons, count_user_cons, ih]
      omega
    · have hb2 : (t.turn_type == TurnType.user_input) = false := by simpa using hb
      simp only [spy_recs, hb2, Bool.false_eq_true, if_false, count_user_cons, ih]
      omega

/-- The spy appends one response per UserInput turn. -/
theorem spy_resps_length (name : String) (f : Nat → String) :
    ∀ (ts : List ConversationTurn) (i : Nat),
      (spy_resps name f i ts).length = count_user ts := by
  intro ts
  induction ts with
  | nil => intro i; simp [spy_resps, count_user]
  | cons t ts ih =>
    intro i
    by_cases hb : t.turn_type == TurnType.user_input
    · simp only [spy_resps, hb, if_true, List.length_cons, count_user_cons, ih]
      omega
    · have hb2 : (t.turn_type == TurnType.user_input) = false := by simpa using hb
      simp only [spy_resps, hb2, Bool.false_eq_true, if_false, count_user_cons, ih]
      omega

/-- The `j`-th spy response carries the content of call `i + j`. -/
theorem spy_resps_get?_lt (name : String) (f : Nat → String) :
    ∀ (ts : List ConversationTurn) (i j : Nat), j < count_user ts →
      (spy_resps name f i ts).get? j = some { content := f (i + j), model := name } := by
  intro ts
  induction ts with
  | nil =>
    intro i j hj
    simp [count_user] at hj
  | cons t ts ih =>
    intro i j hj
    by_cases hb : t.turn_type == TurnType.user_input
    · cases j with
      | zero => simp [spy_resps, hb]
      | succ j2 =>
        rw [count_user_cons, hb, if_pos rfl] at hj
        have hj2 : j2 < count_user ts := by omega
        have h1 : i + 1 + j2 = i + (j2 + 1) := by omega
        simp only [spy_resps, hb, if_true, List.get?_cons_succ]
        rw [ih (i + 1) j2 hj2, h1]
    · have hb2 : (t.turn_type == TurnType.user_input) = false := by simpa using hb
      rw [count_user_cons, hb2, if_neg (by simp)] at hj
      simp only [spy_resps, hb2, Bool.false_eq_true, if_false]
      exact ih i j (by omega)

/-- Every spy call record carries the configured sampling options and exactly
the message prefix accumulated at call time: the base messages plus the first
`2k + 1` engine-appended messages (k prior user/assistant pairs and the
current user message). -/
theorem spy_recs_get? (cfg : ScenarioConfig) (f : Nat → String) :
    ∀ (ts : List ConversationTurn) (base : List Message) (i k : Nat) (c : CallRecord),
      (spy_recs cfg f base i ts).get? k = some c →
      c.temperature = cfg.temperature ∧ c.max_tokens = cfg.max_tokens ∧
      c.messages = base ++ (spy_msgs f i ts).take (2 * k + 1) := by
  intro ts
  induction ts with
  | nil =>
    intro base i k c hc
    simp [spy_recs] at hc
  | cons t ts ih =>
    intro base i k c hc
    by_cases hb : t.turn_type == TurnType.user_input
    · simp only [spy_recs, hb, if_true] at hc
      cases k with
      | zero =>
        rw [List.get?_cons_zero] at hc
        cases hc
        refine ⟨rfl, rfl, ?_⟩
        simp [spy_msgs, hb]
      | succ k2 =>
        rw [List.get?_cons_succ] at hc
        obtain ⟨h1, h2, h3⟩ := ih _ (i + 1) k2 c hc
        refine ⟨h1, h2, ?_⟩
        rw [h3]
        have htake : 2 * (k2 + 1) + 1 = (2 * k2 + 1) + 1 + 1 := by omega
        simp only [spy_msgs, hb, if_true, htake, List.take_succ_cons, List.append_assoc,
          List.cons_append, List.nil_append]
    · have hb2 : (t.turn_type == TurnType.user_input) = false := by simpa using hb
      simp only [spy_recs, hb2, Bool.false_eq_true, if_false] at hc
      obtain ⟨h1, h2, h3⟩ := ih base i k c hc
      refine ⟨h1, h2, ?_⟩
      rw [h3]
      simp only [spy_msgs, hb2, Bool.false_eq_true, if_false]

/-- C7: a UserInput turn first appends the user message, then calls the
adapter's generate on the entire accumulated message list with the config's
temperature and max-tokens, then appends the response; a StateCheck turn
makes no adapter call and appends nothing; instrumenting run_scenario with a
recording adapter shows one call per UserInput turn, each receiving exactly
the transcript prefix up to and including its user message, and the
configured sampling options. -/
theorem c7_user_turn_protocol :
    (∀ (σ ε : Type) (llm : LLM σ ε) (cfg : ScenarioConfig) (turn : ConversationTurn)
       (ts : List ConversationTurn) (h : ConversationHistory) (st : σ),
       turn.turn_type = .user_input →
       run_turns llm cfg (turn :: ts) h st =
         (match llm.generate (h.add_message "user" turn.content).get_messages
             cfg.temperature cfg.max_tokens st with
          | .ok p => run_turns llm cfg ts
              ((h.add_message "user" turn.content).add_response p.1) p.2
          | .error e => .error e)) ∧
    (∀ (σ ε : Type) (llm : LLM σ ε) (cfg : ScenarioConfig) (turn : ConversationTurn)
       (ts : List ConversationTurn) (h : ConversationHistory) (st : σ),
       turn.turn_type = .state_check →
       run_turns llm cfg (turn :: ts) h st = run_turns llm cfg ts h st) ∧
    (∀ (ε : Type) (name : String) (f : Nat → String) (scenario : Scenario),
       ∃ h recs, run_scenario (spy (ε := ε) name f) scenario [] = .ok (h, recs) ∧
         recs.length = count_user scenario.turns ∧
         h.responses.length = count_user scenario.turns ∧
         h.messages.length =
           (if scenario.get_system_message.isSome then 1 else 0) +
             2 * count_user scenario.turns ∧
         (∀ k c, recs.get? k = some c →
            c.temperature = scenario.config.temperature ∧
            c.max_tokens = scenario.config.max_tokens ∧
            c.messages = h.messages.take
              ((if scenario.get_system_message.isSome then 1 else 0) + 2 * k + 1))) := by
  refine ⟨?_, ?_, ?_⟩
  · intro σ ε llm cfg turn ts h st hu
    cases hg : llm.generate (h.add_message "user" turn.content).get_messages
        cfg.temperature cfg.max_tokens st with
    | ok p =>
      obtain ⟨r, st1⟩ := p
      simp only [run_turns, hu, hg]
    | error e =>
      simp only [run_turns, hu, hg]
  · intro σ ε llm cfg turn ts h st hst
    simp only [run_turns, hst]
  · intro ε name f scenario
    have hblen : (init_history (spy (ε := ε) name f) scenario).messages.length =
        (if scenario.get_system_message.isSome then 1 else 0) := by
      cases hsys : scenario.get_system_message with
      | none => simp [init_history, hsys]
      | some m => simp [init_history, hsys, ConversationHistory.add_message]
    have hbresp : (init_history (spy (ε := ε) name f) scenario).responses = [] := by
      cases hsys : scenario.get_system_message with
      | none => simp [init_history, hsys]
      | some m => simp [init_history, hsys, ConversationHistory.add_message]
    have hrun : run_scenario (spy (ε := ε) name f) scenario [] =
        .ok ({ init_history (spy (ε := ε) name f) scenario with
                messages := (init_history (spy (ε := ε) name f) scenario).messages ++
                  spy_msgs f 0 scenario.turns,
                responses := (init_history (spy (ε := ε) name f) scenario).responses ++
                  spy_resps name f 0 scenario.turns },
             spy_recs scenario.config f (init_history (spy (ε := ε) name f) scenario).messages 0
               scenario.turns) := by
      rw [run_scenario]
      have h := spy_run_turns (ε := ε) name f scenario.config scenario.turns
        (init_history (spy (ε := ε) name f) scenario) []
      simpa using h
    refine ⟨_, _, hrun, ?_, ?_, ?_, ?_⟩
    · exact spy_recs_length scenario.config f scenario.turns _ 0
    · rw [hbresp]
      simp [spy_resps_length]
    · rw [List.length_append, hblen, spy_msgs_length]
    · intro k c hc
      obtain ⟨h1, h2, h3⟩ := spy_recs_get? scenario.config f scenario.turns
        (init_history (spy (ε := ε) name f) scenario).messages 0 k c hc
      refine ⟨h1, h2, ?_⟩
      rw [h3]
      have h4 : (if scenario.get_system_message.isSome then 1 else 0) + 2 * k + 1 =
          (init_history (spy (ε := ε) name f) scenario).messages.length + (2 * k + 1) := by
        omega
      rw [h4, take_append_exact]

/-- Witness for C7: the step equations evaluated at a concrete user turn and a
concrete state check. -/
theorem c7_user_turn_protocol_witness :
    run_turns (MockLLM.toLLM { responses := ["ok"] }) cfgW
        [{ turn_type := TurnType.user_input, content := "hi" }]
        ({} : ConversationHistory) ⟨0, 0⟩ =
      (match (MockLLM.toLLM { responses := ["ok"] }).generate
          (ConversationHistory.add_message {} "user" "hi").get_messages
          cfgW.temperature cfgW.max_tokens ⟨0, 0⟩ with
       | .ok p => run_turns (MockLLM.toLLM { responses := ["ok"] }) cfgW []
           ((ConversationHistory.add_message {} "user" "hi").add_response p.1) p.2
       | .error e => .error e) ∧
    run_turns (MockLLM.toLLM { responses := ["ok"] }) cfgW
        [{ turn_type := TurnType.state_check, content := "c" }]
        ({} : ConversationHistory) ⟨0, 0⟩ =
      run_turns (MockLLM.toLLM { responses := ["ok"] }) cfgW []
        ({} : ConversationHistory) ⟨0, 0⟩ :=
  ⟨c7_user_turn_protocol.1 MockState String (MockLLM.toLLM { responses := ["ok"] })
      cfgW { turn_type := TurnType.user_input, content := "hi" } [] {} ⟨0, 0⟩ rfl,
   c7_user_turn_protocol.2.1 MockState String (MockLLM.toLLM { responses := ["ok"] })
      cfgW { turn_type := TurnType.state_check, content := "c" } [] {} ⟨0, 0⟩ rfl⟩

/-! ## C8 -/

/-- The turn loop over an append runs the first block, then (on success) the
second from the reached state; an error in the first block short-circuits. -/
theorem run_turns_append {σ ε : Type} (llm : LLM σ ε) (cfg : ScenarioConfig) :
    ∀ (ts1 ts2 : List ConversationTurn) (h : ConversationHistory) (st : σ),
      run_turns llm cfg (ts1 ++ ts2) h st =
        (match run_turns llm cfg ts1 h st with
         | .ok p => run_turns llm cfg ts2 p.1 p.2
         | .error e => .error e) := by
  intro ts1
  induction ts1 with
  | nil =>
    intro ts2 h st
    simp [run_turns]
  | cons t ts1 ih =>
    intro ts2 h st
    cases htt : t.turn_type
    case user_input =>
      cases hg : llm.generate (h.add_message "user" t.content).get_messages
          cfg.temperature cfg.max_tokens st with
      | ok p =>
        simp only [List.cons_append, run_turns, htt, hg]
        exact ih ts2 _ _
      | error e =>
        simp only [List.cons_append, run_turns, htt, hg]
    case system_prompt =>
      simp only [List.cons_append, run_turns, htt]
      exact ih ts2 h st
    case assertion =>
      simp only [List.cons_append, run_turns, htt]
      exact ih ts2 h st
    case state_check =>
      simp only [List.cons_append, run_turns, htt]
      exact ih ts2 h st

/-- C8: an exception from the adapter's generate propagates unmodified and
immediately: a failing UserInput turn makes the whole turn loop return that
very error (no partial transcript in an ok result), a run that reaches a
failing turn after any prefix makes run_scenario return that error, and
continue_conversation behaves the same; the loop-decomposition conjunct shows
no error from the first part is ever caught. -/
theorem c8_adapter_failure_propagates :
    (∀ (σ ε : Type) (llm : LLM σ ε) (cfg : ScenarioConfig) (turn : ConversationTurn)
       (ts : List ConversationTurn) (h : ConversationHistory) (st : σ) (e : ε),
       turn.turn_type = .user_input →
       llm.generate (h.add_message "user" turn.content).get_messages
         cfg.temperature cfg.max_tokens st = .error e →
       run_turns llm cfg (turn :: ts) h st = .error e) ∧
    (∀ (σ ε : Type) (llm : LLM σ ε) (cfg : ScenarioConfig)
       (ts1 ts2 : List ConversationTurn) (h : ConversationHistory) (st : σ) (e : ε),
       run_turns llm cfg ts1 h st = .error e →
       run_turns llm cfg (ts1 ++ ts2) h st = .error e) ∧
    (∀ (σ ε : Type) (llm : LLM σ ε) (scenario : Scenario) (st : σ) (e : ε)
       (ts1 : List ConversationTurn) (turn : ConversationTurn)
       (ts2 : List ConversationTurn) (h1 : ConversationHistory) (st1 : σ),
       scenario.turns = ts1 ++ turn :: ts2 →
       run_turns llm scenario.config ts1 (init_history llm scenario) st = .ok (h1, st1) →
       turn.turn_type = .user_input →
       llm.generate (h1.add_message "user" turn.content).get_messages
         scenario.config.temperature scenario.config.max_tokens st1 = .error e →
       run_scenario llm scenario st = .error e) ∧
    (∀ (σ ε : Type) (llm : LLM σ ε) (h : ConversationHistory) (input : String)
       (temp : ℚ) (mt : Option Nat) (st : σ) (e : ε),
       llm.generate (h.add_message "user" input).get_messages temp mt st = .error e →
       continue_conversation llm h input temp mt st = .error e) := by
  have step : ∀ (σ ε : Type) (llm : LLM σ ε) (cfg : ScenarioConfig)
      (turn : ConversationTurn) (ts : List ConversationTurn)
      (h : ConversationHistory) (st : σ) (e : ε),
      turn.turn_type = .user_input →
      llm.generate (h.add_message "user" turn.content).get_messages
        cfg.temperature cfg.max_tokens st = .error e →
      run_turns llm cfg (turn :: ts) h st = .error e := by
    intro σ ε llm cfg turn ts h st e hu hg
    simp only [run_turns, hu, hg]
  refine ⟨step, ?_, ?_, ?_⟩
  · intro σ ε llm cfg ts1 ts2 h st e he
    rw [run_turns_append llm cfg ts1 ts2 h st, he]
  · intro σ ε llm scenario st e ts1 turn ts2 h1 st1 hsplit hok hu hg
    rw [run_scenario, hsplit, run_turns_append, hok]
    exact step σ ε llm scenario.config turn ts2 h1 st1 e hu hg
  · intro σ ε llm h input temp mt st e hg
    simp only [continue_conversation, hg]

/-- Witness for C8: a concrete always-failing adapter aborts a one-turn
scenario run and a conversation continuation with its own error. -/
theorem c8_adapter_failure_propagates_witness :
    run_scenario failLLM
        { config := cfgW, turns := [{ turn_type := TurnType.user_input, content := "hi" }] }
        () = .error "boom" ∧
    continue_conversation failLLM ({} : ConversationHistory) "hi" (7/10) none () =
      .error "boom" :=
  ⟨c8_adapter_failure_propagates.2.2.1 Unit String failLLM
      { config := cfgW, turns := [{ turn_type := TurnType.user_input, content := "hi" }] }
      () "boom" [] { turn_type := TurnType.user_input, content := "hi" } []
      (init_history failLLM
        { config := cfgW, turns := [{ turn_type := TurnType.user_input, content := "hi" }] })
      () rfl rfl rfl rfl,
   c8_adapter_failure_propagates.2.2.2 Unit String failLLM {} "hi" (7/10) none () "boom" rfl⟩

/-! ## C9 (corrected) -/

/-- Joining word fragments that each end in one space yields the words joined
by single spaces plus one trailing space (empty for no words). -/
theorem concat_fragments_map_space (ws : List String) :
    concat_fragments (ws.map (fun w => w ++ " ")) =
      (if ws = [] then "" else space_joined ws ++ " ") := by
  induction ws with
  | nil => rfl
  | cons w ws ih =>
    cases ws with
    | nil => simp [concat_fragments, space_joined]
    | cons w2 ws2 =>
      have hne : w2 :: ws2 ≠ [] := by simp
      rw [if_neg (by simp)]
      show (w ++ " ") ++ concat_fragments ((w2 :: ws2).map (fun w => w ++ " ")) = _
      rw [ih, if_neg hne]
      show (w ++ " ") ++ (space_joined (w2 :: ws2) ++ " ") =
        (w ++ " " ++ space_joined (w2 :: ws2)) ++ " "
      simp [String.append_assoc]

/-- Counterexample for C9: the mock adapter's stream for scripted content
"Hello" concatenates to "Hello " (a trailing space is appended to every
word), which is not the non-streaming content "Hello". -/
theorem c9_stream_concat_counterexample :
    (MockLLM.generate { responses := ["Hello"] }
        [{ role := "user", content := "hi" }] (7/10) none ⟨0, 0⟩).map
        (fun p => p.1.content) = .ok "Hello" ∧
    (MockLLM.generate_stream { responses := ["Hello"] }
        [{ role := "user", content := "hi" }] (7/10) none ⟨0, 0⟩).map
        (fun p => concat_fragments p.1) = .ok "Hello " ∧
    "Hello " ≠ "Hello" :=
  ⟨rfl, rfl, by decide⟩

/-- C9 amended: the mock stream yields one fragment per whitespace word of the
non-streaming content, each suffixed with a single space; the concatenation is
therefore the words rejoined with single spaces plus a trailing space (empty
when the content has no words) — whitespace-normalised with a trailing space,
not the exact non-streaming content. -/
theorem c9_stream_concat_amended (m : MockLLM) (messages : List Message)
    (temp : ℚ) (mt : Option Nat) (st : MockState) (r : LLMResponse)
    (st1 : MockState) :
    m.generate messages temp mt st = .ok (r, st1) →
    m.generate_stream messages temp mt st =
      .ok ((py_split r.content).map (fun w => w ++ " "), st1) ∧
    concat_fragments ((py_split r.content).map (fun w => w ++ " ")) =
      (if py_split r.content = [] then "" else space_joined (py_split r.content) ++ " ") := by
  intro hg
  constructor
  · rw [MockLLM.generate_stream, hg]
  · exact concat_fragments_map_space (py_split r.content)

/-- Witness for C9's amended theorem: the two-word scripted response "Hello
world" streams as ["Hello ", "world "], concatenating to "Hello world ". -/
theorem c9_stream_concat_amended_witness :
    MockLLM.generate_stream { responses := ["Hello world"] }
        [{ role := "user", content := "hi" }] (7/10) none ⟨0, 0⟩ =
      .ok (["Hello ", "world "], ⟨1, 1⟩) ∧
    concat_fragments ["Hello ", "world "] = "Hello world " := by
  have h := c9_stream_concat_amended { responses := ["Hello world"] }
    [{ role := "user", content := "hi" }] (7/10) none ⟨0, 0⟩
    { content := "Hello world", model := "mock-model" } ⟨1, 1⟩ rfl
  exact ⟨h.1, h.2⟩

/-! ## C10 (corrected) -/

/-- Counterexample for C10: in the fixture scenario (pattern-bearing
StateCheck, then UserInput "q0" expecting "X1", then UserInput "q1"), run with
scripted responses "X0" (to "q0") and "X1" (to "q1"), the metric for "q0"
passes: it is scored against "X1", the response generated for the LATER
UserInput turn "q1" — not against the response of an earlier UserInput turn
("q0" is the first UserInput, and its own response "X0" does not satisfy the
pattern). The StateCheck consumes response "X0" and the last turn is reported
without a response, so the shift direction claimed (towards earlier turns) is
refuted: the shift is towards later responses. -/
theorem c10_statecheck_shift_counterexample :
    scenC10.turns =
      [{ turn_type := .state_check, content := "check", expected_patterns := ["A"] },
       { turn_type := TurnType.user_input, content := "q0", expected_patterns := ["X1"] },
       { turn_type := TurnType.user_input, content := "q1", expected_patterns := ["Z"] }] ∧
    (run_scenario mockC10.toLLM scenC10 ⟨0, 0⟩).map
        (fun p => p.1.responses.map (fun r => r.content)) = .ok ["X0", "X1"] ∧
    (run_scenario mockC10.toLLM scenC10 ⟨0, 0⟩).map
        (fun p => (evaluate miniSearch p.1 scenC10 []).metrics.map
          (fun mm => (mm.name, mm.passed))) =
      .ok [("pattern_match_turn_0", false), ("pattern_match_turn_1", true),
           ("pattern_match_turn_2", false)] ∧
    pattern_matches miniSearch "X1" "X0" = false ∧
    pattern_matches miniSearch "X1" "X1" = true :=
  ⟨rfl, rfl, rfl, by decide, by decide⟩

/-- Every turn produced by mapping the user-turn constructor is a UserInput
turn. -/
theorem count_user_map_user (us : List (String × List String)) :
    count_user (us.map (fun u =>
      ({ turn_type := TurnType.user_input, content := u.1,
         expected_patterns := u.2 } : ConversationTurn))) = us.length := by
  induction us with
  | nil => simp [count_user]
  | cons u us ih =>
    simp [count_user_cons, ih]
    omega

/-- Evaluating the pattern pass on a StateCheck-first scenario against a
transcript whose j-th response has content `f j`: the StateCheck consumes
response 0, the j-th UserInput turn is scored against response j+1, and the
last pattern-bearing turn sees an exhausted cursor. -/
theorem eval_check_first_scenario (eng : String → String → Option Bool)
    (cfg : ScenarioConfig) (desc : String) (checkPats : List String)
    (us : List (String × List String)) (name : String) (f : Nat → String)
    (h : ConversationHistory)
    (hc : checkPats ≠ []) (hus : ∀ u ∈ us, u.2 ≠ []) (hne : us ≠ [])
    (hlen : h.responses.length = us.length)
    (hget : ∀ j, j < us.length →
      h.responses.get? j = some { content := f j, model := name }) :
    (evaluate_patterns eng h (check_first_scenario cfg desc checkPats us)).length =
      us.length + 1 ∧
    (evaluate_patterns eng h (check_first_scenario cfg desc checkPats us)).get? 0 =
      some (score_metric eng 0
        { turn_type := .state_check, content := desc, expected_patterns := checkPats }
        { content := f 0, model := name }) ∧
    (∀ j u, us.get? j = some u → j + 1 < us.length →
       (evaluate_patterns eng h (check_first_scenario cfg desc checkPats us)).get?
           (j + 1) =
         some (score_metric eng (j + 1)
           { turn_type := TurnType.user_input, content := u.1,
             expected_patterns := u.2 }
           { content := f (j + 1), model := name })) ∧
    (evaluate_patterns eng h (check_first_scenario cfg desc checkPats us)).get?
        us.length = some (no_response_metric us.length) := by
  have hzlt : 0 < us.length := List.length_pos.mpr hne
  have hpb : pattern_bearing (check_first_scenario cfg desc checkPats us).turns =
      (check_first_scenario cfg desc checkPats us).turns := by
    rw [pattern_bearing, List.filter_eq_self]
    intro t ht
    simp only [check_first_scenario, List.mem_cons] at ht
    rcases ht with rfl | ht
    · cases checkPats with
      | nil => exact absurd rfl hc
      | cons a l => rfl
    · obtain ⟨u, hu2, rfl⟩ := List.mem_map.mp ht
      have h3 := hus u hu2
      cases hq : u.2 with
      | nil => exact absurd hq h3
      | cons a l => simp [hq]
  have hlenTurns : (check_first_scenario cfg desc checkPats us).turns.length =
      us.length + 1 := by
    simp [check_first_scenario]
  refine ⟨?_, ?_, ?_, ?_⟩
  · rw [evaluate_patterns_length, hpb, hlenTurns]
  · rw [evaluate_patterns_get?, hpb]
    have h0 : (check_first_scenario cfg desc checkPats us).turns.get? 0 =
        some { turn_type := .state_check, content := desc,
               expected_patterns := checkPats } := rfl
    rw [h0, Option.map_some']
    have hmin : min 0 h.responses.length = 0 := by omega
    rw [hmin]
    simp only [metric_at]
    rw [hget 0 hzlt]
  · intro j u hju hj1
    rw [evaluate_patterns_get?, hpb]
    have hj : (check_first_scenario cfg desc checkPats us).turns.get? (j + 1) =
        some { turn_type := TurnType.user_input, content := u.1,
               expected_patterns := u.2 } := by
      show ((us.map (fun u =>
        ({ turn_type := TurnType.user_input, content := u.1,
           expected_patterns := u.2 } : ConversationTurn)))).get? j = _
      rw [List.get?_map, hju, Option.map_some']
    rw [hj, Option.map_some']
    have hmin : min (j + 1) h.responses.length = j + 1 := by omega
    rw [hmin]
    simp only [metric_at]
    rw [hget (j + 1) hj1]
  · rw [evaluate_patterns_get?, hpb]
    have hlt : us.length < (check_first_scenario cfg desc checkPats us).turns.length := by
      omega
    obtain ⟨t, hT⟩ : ∃ t,
        (check_first_scenario cfg desc checkPats us).turns.get? us.length = some t :=
      ⟨_, List.get?_eq_get hlt⟩
    rw [hT, Option.map_some']
    have hmin : min us.length h.responses.length = us.length := by omega
    have hnone : h.responses.get? us.length = none :=
      List.get?_eq_none.mpr (by omega)
    rw [hmin]
    simp only [metric_at]
    rw [hnone]

/-- C10 amended: a required-pattern StateCheck turn followed by pattern-bearing
UserInput turns consumes one response-cursor position exactly like a UserInput
turn, although run_scenario generates no response for it; hence the StateCheck
is scored against the response of the FIRST UserInput turn, every UserInput
turn is scored against the response generated for the NEXT (later) UserInput
turn — shifted forward by one position per preceding pattern-bearing
StateCheck — and the final pattern-bearing turn is reported as having no
response. -/
theorem c10_statecheck_shift_amended {ε : Type} (eng : String → String → Option Bool)
    (name : String) (f : Nat → String) (cfg : ScenarioConfig) (desc : String)
    (checkPats : List String) (us : List (String × List String))
    (hc : checkPats ≠ []) (hus : ∀ u ∈ us, u.2 ≠ []) (hne : us ≠ []) :
    ∃ h st,
      run_scenario (spy (ε := ε) name f) (check_first_scenario cfg desc checkPats us) []
        = .ok (h, st) ∧
      h.responses.length = us.length ∧
      (∀ j, j < us.length →
         h.responses.get? j = some { content := f j, model := name }) ∧
      (evaluate_patterns eng h (check_first_scenario cfg desc checkPats us)).length =
        us.length + 1 ∧
      (evaluate_patterns eng h (check_first_scenario cfg desc checkPats us)).get? 0 =
        some (score_metric eng 0
          { turn_type := .state_check, content := desc, expected_patterns := checkPats }
          { content := f 0, model := name }) ∧
      (∀ j u, us.get? j = some u → j + 1 < us.length →
         (evaluate_patterns eng h (check_first_scenario cfg desc checkPats us)).get?
             (j + 1) =
           some (score_metric eng (j + 1)
             { turn_type := TurnType.user_input, content := u.1,
               expected_patterns := u.2 }
             { content := f (j + 1), model := name })) ∧
      (evaluate_patterns eng h (check_first_scenario cfg desc checkPats us)).get?
          us.length = some (no_response_metric us.length) := by
  have hbresp : (init_history (spy (ε := ε) name f)
      (check_first_scenario cfg desc checkPats us)).responses = [] := by
    cases hsys : (check_first_scenario cfg desc checkPats us).get_system_message with
    | none => simp [init_history, hsys]
    | some m => simp [init_history, hsys, ConversationHistory.add_message]
  have hrun : run_scenario (spy (ε := ε) name f)
      (check_first_scenario cfg desc checkPats us) [] =
      .ok ({ init_history (spy (ε := ε) name f)
              (check_first_scenario cfg desc checkPats us) with
             messages := (init_history (spy (ε := ε) name f)
               (check_first_scenario cfg desc checkPats us)).messages ++
               spy_msgs f 0 (check_first_scenario cfg desc checkPats us).turns,
             responses := (init_history (spy (ε := ε) name f)
               (check_first_scenario cfg desc checkPats us)).responses ++
               spy_resps name f 0 (check_first_scenario cfg desc checkPats us).turns },
           spy_recs (check_first_scenario cfg desc checkPats us).config f
             (init_history (spy (ε := ε) name f)
               (check_first_scenario cfg desc checkPats us)).messages 0
             (check_first_scenario cfg desc checkPats us).turns) := by
    rw [run_scenario]
    have h := spy_run_turns (ε := ε) name f
      (check_first_scenario cfg desc checkPats us).config
      (check_first_scenario cfg desc checkPats us).turns
      (init_history (spy (ε := ε) name f) (check_first_scenario cfg desc checkPats us)) []
    simpa using h
  have hskip : spy_resps name f 0 (check_first_scenario cfg desc checkPats us).turns =
      spy_resps name f 0 (us.map (fun u =>
        ({ turn_type := TurnType.user_input, content := u.1,
           expected_patterns := u.2 } : ConversationTurn))) := by
    simp [check_first_scenario, spy_resps]
  have hRlen : (spy_resps name f 0 (us.map (fun u =>
      ({ turn_type := TurnType.user_input, content := u.1,
         expected_patterns := u.2 } : ConversationTurn)))).length = us.length := by
    rw [spy_resps_length, count_user_map_user]
  have hRget : ∀ j, j < us.length →
      (spy_resps name f 0 (us.map (fun u =>
        ({ turn_type := TurnType.user_input, content := u.1,
           expected_patterns := u.2 } : ConversationTurn)))).get? j =
        some { content := f j, model := name } := by
    intro j hj
    have hj2 : j < count_user (us.map (fun u =>
        ({ turn_type := TurnType.user_input, content := u.1,
           expected_patterns := u.2 } : ConversationTurn))) := by
      rw [count_user_map_user]
      exact hj
    have h := spy_resps_get?_lt name f _ 0 j hj2
    simpa using h
  refine ⟨_, _, hrun, ?_, ?_, ?_, ?_, ?_, ?_⟩
  · rw [hbresp, List.nil_append, hskip, hRlen]
  · intro j hj
    rw [hbresp, List.nil_append, hskip]
    exact hRget j hj
  · apply (eval_check_first_scenario eng cfg desc checkPats us name f _ hc hus hne
      ?_ ?_).1
    · rw [hbresp, List.nil_append, hskip, hRlen]
    · intro j hj
      rw [hbresp, List.nil_append, hskip]
      exact hRget j hj
  · apply (eval_check_first_scenario eng cfg desc checkPats us name f _ hc hus hne
      ?_ ?_).2.1
    · rw [hbresp, List.nil_append, hskip, hRlen]
    · intro j hj
      rw [hbresp, List.nil_append, hskip]
      exact hRget j hj
  · apply (eval_check_first_scenario eng cfg desc checkPats us name f _ hc hus hne
      ?_ ?_).2.2.1
    · rw [hbresp, List.nil_append, hskip, hRlen]
    · intro j hj
      rw [hbresp, List.nil_append, hskip]
      exact hRget j hj
  · apply (eval_check_first_scenario eng cfg desc checkPats us name f _ hc hus hne
      ?_ ?_).2.2.2
    · rw [hbresp, List.nil_append, hskip, hRlen]
    · intro j hj
      rw [hbresp, List.nil_append, hskip]
      exact hRget j hj

/-- Witness for C10's amended theorem: a concrete StateCheck-first scenario
with two UserInput turns, run under the recording adapter. -/
theorem c10_statecheck_shift_amended_witness :
    ∃ h st,
      run_scenario (spy (ε := String) "m" (fun n => toString n))
          (check_first_scenario cfgW "chk" ["c"] [("q0", ["p0"]), ("q1", ["p1"])]) [] =
        .ok (h, st) ∧
      h.responses.length = 2 ∧
      (∀ j, j < 2 → h.responses.get? j = some { content := toString j, model := "m" }) ∧
      (evaluate_patterns miniSearch h
          (check_first_scenario cfgW "chk" ["c"] [("q0", ["p0"]), ("q1", ["p1"])])).length
        = 3 ∧
      (evaluate_patterns miniSearch h
          (check_first_scenario cfgW "chk" ["c"] [("q0", ["p0"]), ("q1", ["p1"])])).get? 0
        = some (score_metric miniSearch 0
            { turn_type := .state_check, content := "chk", expected_patterns := ["c"] }
            { content := toString 0, model := "m" }) ∧
      (∀ j u, [("q0", ["p0"]), ("q1", ["p1"])].get? j = some u → j + 1 < 2 →
         (evaluate_patterns miniSearch h
             (check_first_scenario cfgW "chk" ["c"]
               [("q0", ["p0"]), ("q1", ["p1"])])).get? (j + 1) =
           some (score_metric miniSearch (j + 1)
             { turn_type := TurnType.user_input, content := u.1,
               expected_patterns := u.2 }
             { content := toString (j + 1), model := "m" })) ∧
      (evaluate_patterns miniSearch h
          (check_first_scenario cfgW "chk" ["c"] [("q0", ["p0"]), ("q1", ["p1"])])).get? 2
        = some (no_response_metric 2) :=
  c10_statecheck_shift_amended (ε := String) miniSearch "m" (fun n => toString n)
    cfgW "chk" ["c"] [("q0", ["p0"]), ("q1", ["p1"])] (by decide) (by decide) (by decide)

end VendingBench
